import Mathlib

set_option maxHeartbeats 1600000

/-!
Verification of the unregex core: a shallow embedding of the per-dialect
regex tokenizers, token explainers and feature tables from
internal/format (format.go, pcre.go, posix.go, js.go, python.go) and the
baseline GoFormat from internal/app/app.go.

Patterns are byte strings in Go; they are modelled as List Char (the
inputs of interest are ASCII, where Go's byte indexing and character
indexing agree).  A Go scan from index i is modelled on the suffix
pattern[i:], so the scan helpers take the suffix that starts at the
opening delimiter and return an offset relative to it; like the Go
helpers they return -1 (as an Int) when no closer exists.  Each Go
tokenizer loop `for i := 0; i < len(pattern); i++` with its
currentToken builder becomes a recursion on the remaining suffix
carrying the pending literal run `cur`.  Where Go appends a constant
header string such as "(?:" (equal, under the branch's own guards, to
the consumed pattern slice), the embedding emits the pattern slice.
-/

namespace Unregex

/-- Flushing of Go's currentToken builder before a token is emitted:
`if currentToken.Len() > 0 { tokens = append(tokens, currentToken.String()); currentToken.Reset() }`. -/
def emitFlush (cur : List Char) (rest : List (List Char)) : List (List Char) :=
  if cur = [] then rest else cur :: rest

/-- Scan loop of format.go FindClosingBracket: prev is pattern[i-1], j the
offset of the head of the list from the opening bracket. -/
def fcbAux : Char → List Char → Int → Int
  | _, [], _ => -1
  | prev, c :: rest, j =>
    if c = ']' ∧ (j = 1 ∨ prev ≠ '\\') then j
    else fcbAux c rest (j + 1)

/-- format.go FindClosingBracket(pattern, start), on the suffix that starts
at the opening bracket; the result is the offset of the closer from start,
or -1.  The Go condition is `pattern[i] == ']' && (i == start+1 || pattern[i-1] != '\\')`. -/
def findClosingBracket (l : List Char) : Int :=
  match l with
  | [] => -1
  | c0 :: rest => fcbAux c0 rest 1

/-- Scan loop of format.go FindClosingCurlyBrace. -/
def fccAux : Char → List Char → Int → Int
  | _, [], _ => -1
  | prev, c :: rest, j =>
    if c = '}' ∧ prev ≠ '\\' then j
    else fccAux c rest (j + 1)

/-- format.go FindClosingCurlyBrace(pattern, start) on the suffix starting
at the opening brace: first `}` with `pattern[i-1] != '\\'`, or -1. -/
def findClosingCurlyBrace (l : List Char) : Int :=
  match l with
  | [] => -1
  | c0 :: rest => fccAux c0 rest 1

/-- strings.IndexByte: first index of ch, or -1. -/
def idxOf (ch : Char) : List Char → Int
  | [] => -1
  | c :: rest =>
    if c = ch then 0
    else if 0 ≤ idxOf ch rest then idxOf ch rest + 1 else -1

/-- strings.LastIndex for a one-character separator: last index of ch, or -1. -/
def lastIdxOf (ch : Char) : List Char → Int
  | [] => -1
  | c :: rest =>
    if 0 ≤ lastIdxOf ch rest then lastIdxOf ch rest + 1
    else if c = ch then 0 else -1

/-- strings.Index: first index where sub starts as a contiguous sublist, or -1. -/
def strIndex (sub : List Char) : List Char → Int
  | [] => if sub = [] then 0 else -1
  | c :: rest =>
    if sub.isPrefixOf (c :: rest) then 0
    else if 0 ≤ strIndex sub rest then strIndex sub rest + 1 else -1

/-- js.go isHexDigit. -/
def isHexDigit (b : Char) : Bool :=
  ('0' ≤ b ∧ b ≤ '9') ∨ ('a' ≤ b ∧ b ≤ 'f') ∨ ('A' ≤ b ∧ b ≤ 'F')

/-- Number of hex digits consumed by the python.go \xHH scan: it aims at two
digits, clamped to the remaining input and cut at the first non-hex digit.
The argument is the suffix just after the "\x". -/
def hexSpan (l2 : List Char) : Nat :=
  match l2 with
  | [] => 0
  | a :: rest2 =>
    if ¬isHexDigit a then 0
    else match rest2 with
      | [] => 1
      | b :: _ => if ¬isHexDigit b then 1 else 2

/-- The python.go check `i+6 <= len(pattern) && isHexDigit(pattern[i+2]) && ...`
for \uHHHH, on the suffix just after the "\u": four hex digits available. -/
def hex4 (l2 : List Char) : Bool :=
  match l2 with
  | a :: b :: c :: d :: _ =>
    isHexDigit a && isHexDigit b && isHexDigit c && isHexDigit d
  | _ => false

/-- Eight hex digits available, for \UHHHHHHHH. -/
def hex8 (l2 : List Char) : Bool :=
  match l2 with
  | a :: b :: c :: d :: e :: f :: g :: h :: _ =>
    isHexDigit a && isHexDigit b && isHexDigit c && isHexDigit d &&
    isHexDigit e && isHexDigit f && isHexDigit g && isHexDigit h
  | _ => false

/-- Two hex digits available, for the \xHH checks of the explainers. -/
def hex2 (l2 : List Char) : Bool :=
  match l2 with
  | a :: b :: _ => isHexDigit a && isHexDigit b
  | _ => false

/-- Feature key constants of format.go. -/
def FeatureLookahead : String := "lookahead"

def FeatureLookbehind : String := "lookbehind"

def FeatureNamedGroup : String := "named_group"

def FeatureAtomicGroup : String := "atomic_group"

def FeatureConditional : String := "conditional"

def FeaturePossessive : String := "possessive"

def FeatureUnicodeClass : String := "unicode_class"

def FeatureRecursion : String := "recursion"

def FeatureBackreference : String := "backreference"

def FeatureNamedBackref : String := "named_backref"

/-- The group-header switch of (*GoFormat).TokenizeRegex (app.go lines
1152-1177): the number of characters of the compound group header that
starts at the given suffix (whose head is the opening parenthesis), or 0
when no compound header is recognized and a bare "(" token is emitted.
The baseline recognizes only "(?:", "(?=", and "(?P<name>". -/
def goGroupSpan (l : List Char) : Nat :=
  if 2 < l.length ∧ l[1]? = some '?' then
    if l[2]? = some ':' then 3
    else if l[2]? = some '=' then 3
    else if l[2]? = some 'P' then
      (if l[3]? = some '<' then
        (if 0 ≤ idxOf '>' (l.drop 4) then (idxOf '>' (l.drop 4)).toNat + 5 else 0)
      else 0)
    else 0
  else 0

/-- The group-header switch of (*PcreFormat).TokenizeRegex (pcre.go lines
113-165): adds "(?!", "(?<=", "(?<!", "(?<name>", "(?>" and "(?P<name>". -/
def pcreGroupSpan (l : List Char) : Nat :=
  if 2 < l.length ∧ l[1]? = some '?' then
    if l[2]? = some ':' then 3
    else if l[2]? = some '=' then 3
    else if l[2]? = some '!' then 3
    else if l[2]? = some '<' then
      (if 3 < l.length then
        (if l[3]? = some '=' then 4
        else if l[3]? = some '!' then 4
        else if 0 ≤ idxOf '>' (l.drop 3) then (idxOf '>' (l.drop 3)).toNat + 4
        else 0)
      else 0)
    else if l[2]? = some '>' then 3
    else if l[2]? = some 'P' then
      (if l[3]? = some '<' then
        (if 0 ≤ idxOf '>' (l.drop 4) then (idxOf '>' (l.drop 4)).toNat + 5 else 0)
      else 0)
    else 0
  else 0

/-- The group-header switch of (*JsFormat).TokenizeRegex (js.go lines
130-165): "(?:", "(?=", "(?!", "(?<=", "(?<!" and "(?<name>". -/
def jsGroupSpan (l : List Char) : Nat :=
  if 2 < l.length ∧ l[1]? = some '?' then
    if l[2]? = some ':' then 3
    else if l[2]? = some '=' then 3
    else if l[2]? = some '!' then 3
    else if l[2]? = some '<' then
      (if 3 < l.length then
        (if l[3]? = some '=' then 4
        else if l[3]? = some '!' then 4
        else if 0 ≤ idxOf '>' (l.drop 3) then (idxOf '>' (l.drop 3)).toNat + 4
        else 0)
      else 0)
    else 0
  else 0

/-- The group-header switch of (*PythonFormat).TokenizeRegex (python.go
lines 184-243): the js headers plus "(?P<name>" and the named
backreference "(?P=name)". -/
def pyGroupSpan (l : List Char) : Nat :=
  if 2 < l.length ∧ l[1]? = some '?' then
    if l[2]? = some ':' then 3
    else if l[2]? = some '=' then 3
    else if l[2]? = some '!' then 3
    else if l[2]? = some '<' then
      (if 3 < l.length then
        (if l[3]? = some '=' then 4
        else if l[3]? = some '!' then 4
        else if 0 ≤ idxOf '>' (l.drop 3) then (idxOf '>' (l.drop 3)).toNat + 4
        else 0)
      else 0)
    else if l[2]? = some 'P' then
      (if 3 < l.length then
        (if l[3]? = some '<' then
          (if 0 ≤ idxOf '>' (l.drop 4) then (idxOf '>' (l.drop 4)).toNat + 5 else 0)
        else if l[3]? = some '=' then
          (if 0 ≤ idxOf ')' (l.drop 4) then (idxOf ')' (l.drop 4)).toNat + 5 else 0)
        else 0)
      else 0)
    else 0
  else 0

/-- The escape-sequence ladder of (*PythonFormat).TokenizeRegex (python.go
lines 91-142), entered at a backslash with at least one following
character: the width of the escape token to emit, or 0 when a truncated
\u, \U or \N{...} form falls through the ladder and the backslash joins
the literal run instead. -/
def pyEscSpan (l : List Char) : Nat :=
  if 2 < l.length ∧ l[1]? = some 'x' then 2 + hexSpan (l.drop 2)
  else if 2 < l.length ∧ l[1]? = some 'u' then (if hex4 (l.drop 2) then 6 else 0)
  else if 2 < l.length ∧ l[1]? = some 'U' then (if hex8 (l.drop 2) then 10 else 0)
  else if 2 < l.length ∧ l[1]? = some 'N' ∧ l[2]? = some '{' then
    (if 0 ≤ idxOf '}' (l.drop 3) then (idxOf '}' (l.drop 3)).toNat + 4 else 0)
  else 2

/-- The main loop of (*GoFormat).TokenizeRegex (app.go): baseline dialect.
cur is the pending literal run; the head of the first argument is
pattern[i]. -/
def goTok : List Char → List Char → List (List Char)
  | [], cur => emitFlush cur []
  | c :: rest, cur =>
    if c = '[' then
      if 0 < findClosingBracket (c :: rest) then
        emitFlush cur (((c :: rest).take ((findClosingBracket (c :: rest)).toNat + 1)) ::
          goTok ((c :: rest).drop ((findClosingBracket (c :: rest)).toNat + 1)) [])
      else emitFlush cur (goTok rest [c])
    else if c = '\\' ∧ rest ≠ [] then
      emitFlush cur (((c :: rest).take 2) :: goTok ((c :: rest).drop 2) [])
    else if c = '{' then
      if 0 < findClosingCurlyBrace (c :: rest) then
        emitFlush cur (((c :: rest).take ((findClosingCurlyBrace (c :: rest)).toNat + 1)) ::
          goTok ((c :: rest).drop ((findClosingCurlyBrace (c :: rest)).toNat + 1)) [])
      else emitFlush cur (goTok rest [c])
    else if c = '*' ∨ c = '+' ∨ c = '?' then
      emitFlush cur ([c] :: goTok rest [])
    else if c = '(' then
      if h : 0 < goGroupSpan (c :: rest) then
        emitFlush cur (((c :: rest).take (goGroupSpan (c :: rest))) ::
          goTok ((c :: rest).drop (goGroupSpan (c :: rest))) [])
      else emitFlush cur (['('] :: goTok rest [])
    else if c = ')' ∨ c = '|' ∨ c = '^' ∨ c = '$' ∨ c = '.' then
      emitFlush cur ([c] :: goTok rest [])
    else
      goTok rest (cur ++ [c])
termination_by l _ => l.length
decreasing_by all_goals (simp only [List.length_drop, List.length_cons] <;> omega)

/-- (*GoFormat).TokenizeRegex (app.go, baseline dialect). -/
def goTokenizeRegex (p : List Char) : List (List Char) :=
  goTok p []

/-- The main loop of (*PcreFormat).TokenizeRegex (pcre.go): adds possessive
quantifier suffixes, the lookarounds, the atomic group header, and the
two named-group header forms. -/
def pcreTok : List Char → List Char → List (List Char)
  | [], cur => emitFlush cur []
  | c :: rest, cur =>
    if c = '[' then
      if 0 < findClosingBracket (c :: rest) then
        emitFlush cur (((c :: rest).take ((findClosingBracket (c :: rest)).toNat + 1)) ::
          pcreTok ((c :: rest).drop ((findClosingBracket (c :: rest)).toNat + 1)) [])
      else emitFlush cur (pcreTok rest [c])
    else if c = '\\' ∧ rest ≠ [] then
      emitFlush cur (((c :: rest).take 2) :: pcreTok ((c :: rest).drop 2) [])
    else if c = '{' then
      if 0 < findClosingCurlyBrace (c :: rest) then
        emitFlush cur (((c :: rest).take ((findClosingCurlyBrace (c :: rest)).toNat + 1)) ::
          pcreTok ((c :: rest).drop ((findClosingCurlyBrace (c :: rest)).toNat + 1)) [])
      else emitFlush cur (pcreTok rest [c])
    else if c = '*' ∨ c = '+' ∨ c = '?' then
      if rest.head? = some '+' then
        emitFlush cur (((c :: rest).take 2) :: pcreTok ((c :: rest).drop 2) [])
      else emitFlush cur ([c] :: pcreTok rest [])
    else if c = '(' then
      if h : 0 < pcreGroupSpan (c :: rest) then
        emitFlush cur (((c :: rest).take (pcreGroupSpan (c :: rest))) ::
          pcreTok ((c :: rest).drop (pcreGroupSpan (c :: rest))) [])
      else emitFlush cur (['('] :: pcreTok rest [])
    else if c = ')' ∨ c = '|' ∨ c = '^' ∨ c = '$' ∨ c = '.' then
      emitFlush cur ([c] :: pcreTok rest [])
    else
      pcreTok rest (cur ++ [c])
termination_by l _ => l.length
decreasing_by all_goals (simp only [List.length_drop, List.length_cons] <;> omega)

/-- (*PcreFormat).TokenizeRegex (pcre.go). -/
def pcreTokenizeRegex (p : List Char) : List (List Char) :=
  pcreTok p []

/-- The main loop of (*PosixFormat).TokenizeRegex (posix.go): a nested POSIX
class check before the generic bracket scan, no quantifier suffixes and no
group-header specialization. -/
def posixTok : List Char → List Char → List (List Char)
  | [], cur => emitFlush cur []
  | c :: rest, cur =>
    if c = '[' then
      if (2 < (c :: rest).length ∧ (c :: rest)[1]? = some '[' ∧ (c :: rest)[2]? = some ':') ∧
          3 < strIndex [':', ']'] (c :: rest) ∧
          strIndex [':', ']'] (c :: rest) + 2 < findClosingBracket (c :: rest) then
        emitFlush cur (((c :: rest).take ((findClosingBracket (c :: rest)).toNat + 1)) ::
          posixTok ((c :: rest).drop ((findClosingBracket (c :: rest)).toNat + 1)) [])
      else if 0 < findClosingBracket (c :: rest) then
        emitFlush cur (((c :: rest).take ((findClosingBracket (c :: rest)).toNat + 1)) ::
          posixTok ((c :: rest).drop ((findClosingBracket (c :: rest)).toNat + 1)) [])
      else emitFlush cur (posixTok rest [c])
    else if c = '\\' ∧ rest ≠ [] then
      emitFlush cur (((c :: rest).take 2) :: posixTok ((c :: rest).drop 2) [])
    else if c = '{' then
      if 0 < findClosingCurlyBrace (c :: rest) then
        emitFlush cur (((c :: rest).take ((findClosingCurlyBrace (c :: rest)).toNat + 1)) ::
          posixTok ((c :: rest).drop ((findClosingCurlyBrace (c :: rest)).toNat + 1)) [])
      else emitFlush cur (posixTok rest [c])
    else if c = '*' ∨ c = '+' ∨ c = '?' then
      emitFlush cur ([c] :: posixTok rest [])
    else if c = '(' ∨ c = ')' ∨ c = '|' ∨ c = '^' ∨ c = '$' ∨ c = '.' then
      emitFlush cur ([c] :: posixTok rest [])
    else
      posixTok rest (cur ++ [c])
termination_by l _ => l.length
decreasing_by all_goals (simp only [List.length_drop, List.length_cons] <;> omega)

/-- (*PosixFormat).TokenizeRegex (posix.go). -/
def posixTokenizeRegex (p : List Char) : List (List Char) :=
  posixTok p []

/-- The flag/delimiter pre-pass of (*JsFormat).TokenizeRegex (js.go lines
44-60): returns the synthesized leading tokens (the "/flags" marker, when
present) and the stripped pattern handed to the main loop. -/
def jsStrip (p : List Char) : List (List Char) × List Char :=
  if 2 < p.length ∧ p[0]? = some '/' then
    if 0 < lastIdxOf '/' p ∧ lastIdxOf '/' p < (p.length : Int) - 1 then
      ((if 0 < (p.drop ((lastIdxOf '/' p).toNat + 1)).length then
          [('/' :: p.drop ((lastIdxOf '/' p).toNat + 1))]
        else []),
        (p.drop 1).take ((lastIdxOf '/' p).toNat - 1))
    else if p[0]? = some '/' ∧ p.getLast? = some '/' then
      ([], (p.drop 1).take (p.length - 2))
    else ([], p)
  else ([], p)

/-- The main loop of (*JsFormat).TokenizeRegex (js.go): non-greedy
quantifier suffixes, lookarounds and the single named-group form. -/
def jsTok : List Char → List Char → List (List Char)
  | [], cur => emitFlush cur []
  | c :: rest, cur =>
    if c = '[' then
      if 0 < findClosingBracket (c :: rest) then
        emitFlush cur (((c :: rest).take ((findClosingBracket (c :: rest)).toNat + 1)) ::
          jsTok ((c :: rest).drop ((findClosingBracket (c :: rest)).toNat + 1)) [])
      else emitFlush cur (jsTok rest [c])
    else if c = '\\' ∧ rest ≠ [] then
      emitFlush cur (((c :: rest).take 2) :: jsTok ((c :: rest).drop 2) [])
    else if c = '{' then
      if 0 < findClosingCurlyBrace (c :: rest) then
        emitFlush cur (((c :: rest).take ((findClosingCurlyBrace (c :: rest)).toNat + 1)) ::
          jsTok ((c :: rest).drop ((findClosingCurlyBrace (c :: rest)).toNat + 1)) [])
      else emitFlush cur (jsTok rest [c])
    else if c = '*' ∨ c = '+' ∨ c = '?' then
      if rest.head? = some '?' then
        emitFlush cur (((c :: rest).take 2) :: jsTok ((c :: rest).drop 2) [])
      else emitFlush cur ([c] :: jsTok rest [])
    else if c = '(' then
      if h : 0 < jsGroupSpan (c :: rest) then
        emitFlush cur (((c :: rest).take (jsGroupSpan (c :: rest))) ::
          jsTok ((c :: rest).drop (jsGroupSpan (c :: rest))) [])
      else emitFlush cur (['('] :: jsTok rest [])
    else if c = ')' ∨ c = '|' ∨ c = '^' ∨ c = '$' ∨ c = '.' then
      emitFlush cur ([c] :: jsTok rest [])
    else
      jsTok rest (cur ++ [c])
termination_by l _ => l.length
decreasing_by all_goals (simp only [List.length_drop, List.length_cons] <;> omega)

/-- (*JsFormat).TokenizeRegex (js.go): pre-pass then main loop. -/
def jsTokenizeRegex (p : List Char) : List (List Char) :=
  (jsStrip p).1 ++ jsTok (jsStrip p).2 []

/-- Raw string marker pre-pass of (*PythonFormat).TokenizeRegex (python.go
lines 45-50). -/
def pyStrip1 (p : List Char) : List (List Char) × List Char :=
  if (p[0]? = some 'r' ∨ p[0]? = some 'R') ∧ (p[1]? = some '"' ∨ p[1]? = some '\'') then
    ([p.take 2], p.drop 2)
  else ([], p)

/-- Inline flag letters of python.go ('a', 'i', 'L', 'm', 's', 'u', 'x'). -/
def pyFlagChar (ch : Char) : Bool :=
  ch = 'a' ∨ ch = 'i' ∨ ch = 'L' ∨ ch = 'm' ∨ ch = 's' ∨ ch = 'u' ∨ ch = 'x'

/-- Leading inline-flags pre-pass of (*PythonFormat).TokenizeRegex
(python.go lines 52-70). -/
def pyStrip2 (p : List Char) : List (List Char) × List Char :=
  if 2 < p.length ∧ p[0]? = some '(' ∧ p[1]? = some '?' then
    if 2 < idxOf ')' p ∧ ((p.drop 2).take ((idxOf ')' p).toNat - 2)).all pyFlagChar then
      ([p.take ((idxOf ')' p).toNat + 1)], p.drop ((idxOf ')' p).toNat + 1))
    else ([], p)
  else ([], p)

/-- The main loop of (*PythonFormat).TokenizeRegex (python.go): multi-width
escapes, non-greedy suffixes, lookarounds, both named-group forms and the
named backreference. -/
def pyTok : List Char → List Char → List (List Char)
  | [], cur => emitFlush cur []
  | c :: rest, cur =>
    if c = '[' then
      if 0 < findClosingBracket (c :: rest) then
        emitFlush cur (((c :: rest).take ((findClosingBracket (c :: rest)).toNat + 1)) ::
          pyTok ((c :: rest).drop ((findClosingBracket (c :: rest)).toNat + 1)) [])
      else emitFlush cur (pyTok rest [c])
    else if c = '\\' ∧ rest ≠ [] then
      if h : 0 < pyEscSpan (c :: rest) then
        emitFlush cur (((c :: rest).take (pyEscSpan (c :: rest))) ::
          pyTok ((c :: rest).drop (pyEscSpan (c :: rest))) [])
      else emitFlush cur (pyTok rest ['\\'])
    else if c = '{' then
      if 0 < findClosingCurlyBrace (c :: rest) then
        emitFlush cur (((c :: rest).take ((findClosingCurlyBrace (c :: rest)).toNat + 1)) ::
          pyTok ((c :: rest).drop ((findClosingCurlyBrace (c :: rest)).toNat + 1)) [])
      else emitFlush cur (pyTok rest [c])
    else if c = '*' ∨ c = '+' ∨ c = '?' then
      if rest.head? = some '?' then
        emitFlush cur (((c :: rest).take 2) :: pyTok ((c :: rest).drop 2) [])
      else emitFlush cur ([c] :: pyTok rest [])
    else if c = '(' then
      if h : 0 < pyGroupSpan (c :: rest) then
        emitFlush cur (((c :: rest).take (pyGroupSpan (c :: rest))) ::
          pyTok ((c :: rest).drop (pyGroupSpan (c :: rest))) [])
      else emitFlush cur (['('] :: pyTok rest [])
    else if c = ')' ∨ c = '|' ∨ c = '^' ∨ c = '$' ∨ c = '.' then
      emitFlush cur ([c] :: pyTok rest [])
    else
      pyTok rest (cur ++ [c])
termination_by l _ => l.length
decreasing_by all_goals (simp only [List.length_drop, List.length_cons] <;> omega)

/-- (*PythonFormat).TokenizeRegex (python.go): raw marker pre-pass, inline
flags pre-pass, then the main loop. -/
def pyTokenizeRegex (p : List Char) : List (List Char) :=
  (pyStrip1 p).1 ++ (pyStrip2 (pyStrip1 p).2).1 ++ pyTok (pyStrip2 (pyStrip1 p).2).2 []

/-- (*GoFormat).HasFeature (app.go): lookup in the baseline feature map,
with Go's zero value false for missing keys. -/
def goHasFeature (feature : String) : Bool :=
  if feature = FeatureLookahead then true
  else if feature = FeatureLookbehind then false
  else if feature = FeatureNamedGroup then true
  else if feature = FeatureAtomicGroup then false
  else if feature = FeatureConditional then false
  else if feature = FeaturePossessive then false
  else if feature = FeatureUnicodeClass then true
  else if feature = FeatureRecursion then false
  else if feature = FeatureBackreference then true
  else if feature = FeatureNamedBackref then true
  else false

/-- (*PcreFormat).HasFeature (pcre.go). -/
def pcreHasFeature (feature : String) : Bool :=
  if feature = FeatureLookahead then true
  else if feature = FeatureLookbehind then true
  else if feature = FeatureNamedGroup then true
  else if feature = FeatureAtomicGroup then true
  else if feature = FeatureConditional then true
  else if feature = FeaturePossessive then true
  else if feature = FeatureUnicodeClass then true
  else if feature = FeatureRecursion then true
  else if feature = FeatureBackreference then true
  else if feature = FeatureNamedBackref then true
  else false

/-- (*PosixFormat).HasFeature (posix.go). -/
def posixHasFeature (feature : String) : Bool :=
  if feature = FeatureLookahead then false
  else if feature = FeatureLookbehind then false
  else if feature = FeatureNamedGroup then false
  else if feature = FeatureAtomicGroup then false
  else if feature = FeatureConditional then false
  else if feature = FeaturePossessive then false
  else if feature = FeatureUnicodeClass then false
  else if feature = FeatureRecursion then false
  else if feature = FeatureBackreference then true
  else if feature = FeatureNamedBackref then false
  else false

/-- (*JsFormat).HasFeature (js.go). -/
def jsHasFeature (feature : String) : Bool :=
  if feature = FeatureLookahead then true
  else if feature = FeatureLookbehind then true
  else if feature = FeatureNamedGroup then true
  else if feature = FeatureAtomicGroup then false
  else if feature = FeatureConditional then false
  else if feature = FeaturePossessive then false
  else if feature = FeatureUnicodeClass then true
  else if feature = FeatureRecursion then false
  else if feature = FeatureBackreference then true
  else if feature = FeatureNamedBackref then true
  else false

/-- (*PythonFormat).HasFeature (python.go). -/
def pyHasFeature (feature : String) : Bool :=
  if feature = FeatureLookahead then true
  else if feature = FeatureLookbehind then true
  else if feature = FeatureNamedGroup then true
  else if feature = FeatureAtomicGroup then false
  else if feature = FeatureConditional then false
  else if feature = FeaturePossessive then false
  else if feature = FeatureUnicodeClass then true
  else if feature = FeatureRecursion then false
  else if feature = FeatureBackreference then true
  else if feature = FeatureNamedBackref then true
  else false

/-- The ten feature keys of format.go. -/
def featureKeys : List String :=
  [FeatureLookahead, FeatureLookbehind, FeatureNamedGroup, FeatureAtomicGroup,
   FeatureConditional, FeaturePossessive, FeatureUnicodeClass, FeatureRecursion,
   FeatureBackreference, FeatureNamedBackref]

/-- strings.Contains: sub occurs as a contiguous sublist. -/
def hasSub (sub l : List Char) : Bool :=
  0 ≤ strIndex sub l

/-- strings.Split for a one-character separator. -/
def splitOn (sep : Char) : List Char → List (List Char)
  | [] => [[]]
  | c :: rest =>
    if c = sep then [] :: splitOn sep rest
    else
      match splitOn sep rest with
      | [] => [[c]]
      | h :: tl => (c :: h) :: tl

/-- js.go explainJsFlags, one flag character. -/
def jsFlagExpl (ch : Char) : String :=
  if ch = 'g' then "g: Global search - find all matches rather than stopping after the first match"
  else if ch = 'i' then "i: Case-insensitive search"
  else if ch = 'm' then "m: Multi-line search - ^ and $ match start/end of each line"
  else if ch = 's' then "s: Dot-all mode - the dot (.) matches newlines"
  else if ch = 'u' then "u: Unicode mode - treat pattern as a sequence of Unicode code points"
  else if ch = 'y' then "y: Sticky mode - matches only from the index indicated by the lastIndex property"
  else if ch = 'd' then "d: Generate indices for substring matches"
  else String.mk [ch] ++ ": Unknown flag"

/-- js.go explainJsFlags. -/
def explainJsFlags (flags : List Char) : String :=
  if flags = [] then "No flags specified"
  else "Flags: " ++ String.intercalate ", " (flags.map jsFlagExpl)

/-- js.go explainJsEscapeSequence. -/
def explainJsEscapeSequence (t : List Char) : String :=
  if t.length < 2 then "Invalid escape sequence"
  else if t[1]? = some 'd' then "Matches any digit (0-9)"
  else if t[1]? = some 'D' then "Matches any non-digit character"
  else if t[1]? = some 'w' then "Matches any word character (alphanumeric plus underscore)"
  else if t[1]? = some 'W' then "Matches any non-word character"
  else if t[1]? = some 's' then "Matches any whitespace character (space, tab, newline, etc.)"
  else if t[1]? = some 'S' then "Matches any non-whitespace character"
  else if t[1]? = some 'b' then "Matches a word boundary"
  else if t[1]? = some 'B' then "Matches a non-word boundary"
  else if t[1]? = some 'n' then "Matches a newline character"
  else if t[1]? = some 't' then "Matches a tab character"
  else if t[1]? = some 'r' then "Matches a carriage return character"
  else if t[1]? = some 'f' then "Matches a form feed character"
  else if t[1]? = some 'v' then "Matches a vertical tab character"
  else if t[1]? = some '0' then "Matches a null character"
  else if t[1]? = some 'k' then
    (if 2 < t.length ∧ t[2]? = some '<' then
      (if 0 ≤ idxOf '>' (t.drop 3) then
        "Backreference to the named group '" ++
          String.mk ((t.drop 3).take (idxOf '>' (t.drop 3)).toNat) ++ "'"
      else "Invalid named backreference")
    else "Invalid named backreference")
  else if t[1]? = some '1' ∨ t[1]? = some '2' ∨ t[1]? = some '3' ∨ t[1]? = some '4' ∨
      t[1]? = some '5' ∨ t[1]? = some '6' ∨ t[1]? = some '7' ∨ t[1]? = some '8' ∨
      t[1]? = some '9' then
    "Backreference to capturing group " ++ String.mk ((t.drop 1).take 1)
  else if t[1]? = some 'p' ∨ t[1]? = some 'P' then
    (if 2 < t.length ∧ t[2]? = some '{' then
      (if 0 ≤ idxOf '}' (t.drop 3) then
        (if t[1]? = some 'p' then
          "Matches a character with the unicode property '" ++
            String.mk ((t.drop 3).take (idxOf '}' (t.drop 3)).toNat) ++ "' (requires u flag)"
        else
          "Matches a character without the unicode property '" ++
            String.mk ((t.drop 3).take (idxOf '}' (t.drop 3)).toNat) ++ "' (requires u flag)")
      else "Invalid unicode property")
    else "Invalid unicode property")
  else if t[1]? = some 'u' then
    (if 6 ≤ t.length ∧ hex4 (t.drop 2) then
      "Matches the Unicode character U+" ++ String.mk ((t.drop 2).take 4)
    else "Invalid Unicode escape sequence")
  else if t[1]? = some 'x' then
    (if 4 ≤ t.length ∧ hex2 (t.drop 2) then
      "Matches the character with hex code " ++ String.mk ((t.drop 2).take 2)
    else "Invalid hexadecimal escape sequence")
  else "Matches the character '" ++ String.mk ((t.drop 1).take 1) ++ "' literally"

/-- (*JsFormat).ExplainToken (js.go): its first case classifies every token
beginning with a slash as a flags token. -/
def jsExplainToken (t : List Char) : String :=
  if t.take 1 = ['/'] then explainJsFlags (t.drop 1)
  else if t = ['^'] then "Matches the start of a line"
  else if t = ['$'] then "Matches the end of a line"
  else if t = ['.'] then "Matches any single character except newline"
  else if t = ['*'] then "Matches 0 or more of the preceding element (greedy)"
  else if t = ['+'] then "Matches 1 or more of the preceding element (greedy)"
  else if t = ['?'] then "Matches 0 or 1 of the preceding element (greedy)"
  else if t = ['*', '?'] then "Matches 0 or more of the preceding element (non-greedy)"
  else if t = ['+', '?'] then "Matches 1 or more of the preceding element (non-greedy)"
  else if t = ['?', '?'] then "Matches 0 or 1 of the preceding element (non-greedy)"
  else if t = ['|'] then "Acts as an OR operator - matches the expression before or after the |"
  else if t = ['('] then "Start of a capturing group"
  else if t = [')'] then "End of a capturing group"
  else if t = ['(', '?', ':'] then
    "Start of a non-capturing group - groups the expression but doesn't create a capture group"
  else if t = ['(', '?', '='] then
    "Start of a positive lookahead - matches if the pattern inside matches, but doesn't consume characters"
  else if t = ['(', '?', '!'] then
    "Start of a negative lookahead - matches if the pattern inside doesn't match, but doesn't consume characters"
  else if t = ['(', '?', '<', '='] then
    "Start of a positive lookbehind - matches if the pattern inside matches immediately before current position"
  else if t = ['(', '?', '<', '!'] then
    "Start of a negative lookbehind - matches if the pattern inside doesn't match immediately before current position"
  else if t.take 3 = ['(', '?', '<'] ∧ t.getLast? = some '>' ∧
      ¬hasSub ['<', '?'] t ∧ ¬hasSub ['<', '!'] t then
    "Start of a named capturing group called '" ++ String.mk ((t.drop 3).dropLast) ++ "'"
  else if t.take 1 = ['['] ∧ t.getLast? = some ']' then
    (if 2 < t.length ∧ t[1]? = some '^' then
      "Matches any character NOT in the set: " ++ String.mk ((t.drop 2).dropLast)
    else "Matches any character in the set: " ++ String.mk ((t.drop 1).dropLast))
  else if t.take 1 = ['\\'] then explainJsEscapeSequence t
  else if t.take 1 = ['{'] ∧ t.getLast? = some '}' then
    (if hasSub [','] ((t.drop 1).dropLast) then
      (match splitOn ',' ((t.drop 1).dropLast) with
       | [a, b] =>
         if b = [] then
           "Matches at least " ++ String.mk a ++ " occurrences of the preceding element"
         else
           "Matches between " ++ String.mk a ++ " and " ++ String.mk b ++
             " occurrences of the preceding element"
       | _ =>
         "Matches exactly " ++ String.mk ((t.drop 1).dropLast) ++
           " occurrences of the preceding element")
    else
      "Matches exactly " ++ String.mk ((t.drop 1).dropLast) ++
        " occurrences of the preceding element")
  else if t.length = 1 then "Matches the character '" ++ String.mk t ++ "' literally"
  else "Matches the string '" ++ String.mk t ++ "' literally"

/-- python.go explainPythonFlags, one flag character. -/
def pyFlagExpl (ch : Char) : String :=
  if ch = 'a' then "a: ASCII-only matching"
  else if ch = 'i' then "i: Case-insensitive matching"
  else if ch = 'L' then "L: Locale-dependent matching"
  else if ch = 'm' then "m: Multi-line matching - ^ and $ match at line breaks"
  else if ch = 's' then "s: Dot matches all - the dot (.) matches any character including newline"
  else if ch = 'u' then "u: Unicode matching"
  else if ch = 'x' then "x: Verbose - whitespace and comments in pattern are ignored"
  else String.mk [ch] ++ ": Unknown flag"

/-- python.go explainPythonFlags. -/
def explainPythonFlags (flags : List Char) : String :=
  if flags = [] then "No flags specified"
  else "Flags: " ++ String.intercalate ", " (flags.map pyFlagExpl)

/-- python.go explainPythonEscapeSequence. -/
def explainPythonEscapeSequence (t : List Char) : String :=
  if t.length < 2 then "Invalid escape sequence"
  else if t[1]? = some 'A' then "Matches only at the start of the string"
  else if t[1]? = some 'Z' then "Matches only at the end of the string"
  else if t[1]? = some 'd' then "Matches any decimal digit (0-9)"
  else if t[1]? = some 'D' then "Matches any non-digit character"
  else if t[1]? = some 's' then "Matches any whitespace character (space, tab, newline, etc.)"
  else if t[1]? = some 'S' then "Matches any non-whitespace character"
  else if t[1]? = some 'w' then "Matches any alphanumeric character (including underscore)"
  else if t[1]? = some 'W' then "Matches any non-alphanumeric character"
  else if t[1]? = some 'b' then "Matches a word boundary"
  else if t[1]? = some 'B' then "Matches a non-word boundary"
  else if t[1]? = some 'n' then "Matches a newline character"
  else if t[1]? = some 't' then "Matches a tab character"
  else if t[1]? = some 'r' then "Matches a carriage return character"
  else if t[1]? = some 'f' then "Matches a form feed character"
  else if t[1]? = some 'v' then "Matches a vertical tab character"
  else if t[1]? = some 'a' then "Matches a bell (BEL) character"
  else if t[1]? = some '1' ∨ t[1]? = some '2' ∨ t[1]? = some '3' ∨ t[1]? = some '4' ∨
      t[1]? = some '5' ∨ t[1]? = some '6' ∨ t[1]? = some '7' ∨ t[1]? = some '8' ∨
      t[1]? = some '9' then
    "Backreference to capturing group " ++ String.mk ((t.drop 1).take 1)
  else if t[1]? = some 'g' then
    (if 3 < t.length ∧ t[2]? = some '<' then
      (if 0 ≤ idxOf '>' (t.drop 3) then
        "Backreference to the named group '" ++
          String.mk ((t.drop 3).take (idxOf '>' (t.drop 3)).toNat) ++ "'"
      else "Invalid named backreference")
    else "Invalid named backreference")
  else if t[1]? = some 'x' then
    (if 4 ≤ t.length ∧ hex2 (t.drop 2) then
      "Matches the character with hex code " ++ String.mk ((t.drop 2).take 2)
    else "Invalid hexadecimal escape sequence")
  else if t[1]? = some 'u' then
    (if 6 ≤ t.length ∧ hex4 (t.drop 2) then
      "Matches the Unicode character U+" ++ String.mk ((t.drop 2).take 4)
    else "Invalid Unicode escape sequence")
  else if t[1]? = some 'U' then
    (if 10 ≤ t.length ∧ hex8 (t.drop 2) then
      "Matches the Unicode character U+" ++ String.mk ((t.drop 2).take 8)
    else "Invalid extended Unicode escape sequence")
  else if t[1]? = some 'N' then
    (if 3 < t.length ∧ t[2]? = some '{' then
      (if 0 < idxOf '}' (t.drop 2) then
        "Matches the Unicode character named '" ++
          String.mk ((t.drop 3).take ((idxOf '}' (t.drop 2)).toNat - 1)) ++ "'"
      else "Invalid Unicode name escape sequence")
    else "Invalid Unicode name escape sequence")
  else "Matches the character '" ++ String.mk ((t.drop 1).take 1) ++ "' literally"

/-- (*PythonFormat).ExplainToken (python.go).  The Go switch case for tokens
that begin "(?", end with a closing parenthesis and have length above 3
returns a flag explanation only when
every interior character is an inline-flag letter; otherwise its body falls
through the switch to the trailing `return "Unknown token: ..."`. -/
def pythonExplainToken (t : List Char) : String :=
  if t.take 2 = ['r', '\''] ∨ t.take 2 = ['r', '"'] ∨
      t.take 2 = ['R', '\''] ∨ t.take 2 = ['R', '"'] then
    "Raw string marker - backslashes are treated literally"
  else if t.take 2 = ['(', '?'] ∧ t.getLast? = some ')' ∧ 3 < t.length then
    (if ((t.drop 2).dropLast).all pyFlagChar then
      explainPythonFlags ((t.drop 2).dropLast)
    else "Unknown token: " ++ String.mk t)
  else if t = ['^'] then "Matches the start of a line"
  else if t = ['$'] then "Matches the end of a line"
  else if t = ['.'] then "Matches any single character except newline"
  else if t = ['*'] then "Matches 0 or more of the preceding element (greedy)"
  else if t = ['+'] then "Matches 1 or more of the preceding element (greedy)"
  else if t = ['?'] then "Matches 0 or 1 of the preceding element (greedy)"
  else if t = ['*', '?'] then "Matches 0 or more of the preceding element (non-greedy)"
  else if t = ['+', '?'] then "Matches 1 or more of the preceding element (non-greedy)"
  else if t = ['?', '?'] then "Matches 0 or 1 of the preceding element (non-greedy)"
  else if t = ['|'] then "Acts as an OR operator - matches the expression before or after the |"
  else if t = ['('] then "Start of a capturing group"
  else if t = [')'] then "End of a capturing group"
  else if t = ['(', '?', ':'] then
    "Start of a non-capturing group - groups the expression but doesn't create a capture group"
  else if t = ['(', '?', '='] then
    "Start of a positive lookahead - matches if the pattern inside matches, but doesn't consume characters"
  else if t = ['(', '?', '!'] then
    "Start of a negative lookahead - matches if the pattern inside doesn't match, but doesn't consume characters"
  else if t = ['(', '?', '<', '='] then
    "Start of a positive lookbehind - matches if the pattern inside matches immediately before current position"
  else if t = ['(', '?', '<', '!'] then
    "Start of a negative lookbehind - matches if the pattern inside doesn't match immediately before current position"
  else if t.take 4 = ['(', '?', 'P', '<'] ∧ t.getLast? = some '>' then
    "Start of a named capturing group called '" ++ String.mk ((t.drop 4).dropLast) ++ "'"
  else if t.take 4 = ['(', '?', 'P', '='] ∧ t.getLast? = some ')' then
    "Backreference to the named group '" ++ String.mk ((t.drop 4).dropLast) ++ "'"
  else if t.take 1 = ['['] ∧ t.getLast? = some ']' then
    (if 2 < t.length ∧ t[1]? = some '^' then
      "Matches any character NOT in the set: " ++ String.mk ((t.drop 2).dropLast)
    else "Matches any character in the set: " ++ String.mk ((t.drop 1).dropLast))
  else if t.take 1 = ['\\'] then explainPythonEscapeSequence t
  else if t.take 1 = ['{'] ∧ t.getLast? = some '}' then
    (if hasSub [','] ((t.drop 1).dropLast) then
      (match splitOn ',' ((t.drop 1).dropLast) with
       | [a, b] =>
         if b = [] then
           "Matches at least " ++ String.mk a ++ " occurrences of the preceding element"
         else
           "Matches between " ++ String.mk a ++ " and " ++ String.mk b ++
             " occurrences of the preceding element"
       | _ =>
         "Matches exactly " ++ String.mk ((t.drop 1).dropLast) ++
           " occurrences of the preceding element")
    else
      "Matches exactly " ++ String.mk ((t.drop 1).dropLast) ++
        " occurrences of the preceding element")
  else if t.length = 1 then "Matches the character '" ++ String.mk t ++ "' literally"
  else "Matches the string '" ++ String.mk t ++ "' literally"

theorem flatten_emitFlush (cur : List Char) (r : List (List Char)) :
    (emitFlush cur r).flatten = cur ++ r.flatten := by
  unfold emitFlush
  split <;> simp_all

theorem mem_emitFlush_iff {t cur : List Char} {r : List (List Char)} :
    t ∈ emitFlush cur r ↔ (cur ≠ [] ∧ t = cur) ∨ t ∈ r := by
  unfold emitFlush
  split <;> simp_all

theorem take_one_append_tail (l : List Char) : l.take 1 ++ l.tail = l := by
  cases l <;> simp

theorem goTok_flat : ∀ l cur, (goTok l cur).flatten = cur ++ l := by
  intro l cur
  induction l, cur using goTok.induct with
  | _ =>
    rw [goTok.eq_def]
    simp_all [flatten_emitFlush, List.take_append_drop, take_one_append_tail,
      List.getElem?_eq_some]
    repeat'
      first
      | omega
      | (split <;>
          simp_all [flatten_emitFlush, List.take_append_drop, take_one_append_tail,
            List.getElem?_eq_some])

theorem goTok_ne_nil : ∀ l cur, ∀ t ∈ goTok l cur, t ≠ [] := by
  intro l cur
  induction l, cur using goTok.induct with
  | _ =>
    rw [goTok.eq_def]
    simp_all [mem_emitFlush_iff, or_imp, forall_and, forall_eq, and_imp,
      List.getElem?_eq_some, List.take_eq_nil_iff]
    repeat'
      first
      | omega
      | (split <;> simp_all [mem_emitFlush_iff, or_imp, forall_and, forall_eq, and_imp,
      List.getElem?_eq_some, List.take_eq_nil_iff])

theorem pcreTok_flat : ∀ l cur, (pcreTok l cur).flatten = cur ++ l := by
  intro l cur
  induction l, cur using pcreTok.induct with
  | _ =>
    rw [pcreTok.eq_def]
    simp_all [flatten_emitFlush, List.take_append_drop, take_one_append_tail,
      List.getElem?_eq_some]
    repeat'
      first
      | omega
      | (split <;>
          simp_all [flatten_emitFlush, List.take_append_drop, take_one_append_tail,
            List.getElem?_eq_some])

theorem pcreTok_ne_nil : ∀ l cur, ∀ t ∈ pcreTok l cur, t ≠ [] := by
  intro l cur
  induction l, cur using pcreTok.induct with
  | _ =>
    rw [pcreTok.eq_def]
    simp_all [mem_emitFlush_iff, or_imp, forall_and, forall_eq, and_imp,
      List.getElem?_eq_some, List.take_eq_nil_iff]
    repeat'
      first
      | omega
      | (split <;> simp_all [mem_emitFlush_iff, or_imp, forall_and, forall_eq, and_imp,
      List.getElem?_eq_some, List.take_eq_nil_iff])

theorem posixTok_flat : ∀ l cur, (posixTok l cur).flatten = cur ++ l := by
  intro l cur
  induction l, cur using posixTok.induct with
  | _ =>
    rw [posixTok.eq_def]
    simp_all [flatten_emitFlush, List.take_append_drop, take_one_append_tail,
      List.getElem?_eq_some]
    repeat'
      first
      | omega
      | (split <;>
          simp_all [flatten_emitFlush, List.take_append_drop, take_one_append_tail,
            List.getElem?_eq_some])

theorem posixTok_ne_nil : ∀ l cur, ∀ t ∈ posixTok l cur, t ≠ [] := by
  intro l cur
  induction l, cur using posixTok.induct with
  | _ =>
    rw [posixTok.eq_def]
    simp_all [mem_emitFlush_iff, or_imp, forall_and, forall_eq, and_imp,
      List.getElem?_eq_some, List.take_eq_nil_iff]
    repeat'
      first
      | omega
      | (split <;> simp_all [mem_emitFlush_iff, or_imp, forall_and, forall_eq, and_imp,
      List.getElem?_eq_some, List.take_eq_nil_iff])

theorem jsTok_flat : ∀ l cur, (jsTok l cur).flatten = cur ++ l := by
  intro l cur
  induction l, cur using jsTok.induct with
  | _ =>
    rw [jsTok.eq_def]
    simp_all [flatten_emitFlush, List.take_append_drop, take_one_append_tail,
      List.getElem?_eq_some]
    repeat'
      first
      | omega
      | (split <;>
          simp_all [flatten_emitFlush, List.take_append_drop, take_one_append_tail,
            List.getElem?_eq_some])

theorem jsTok_ne_nil : ∀ l cur, ∀ t ∈ jsTok l cur, t ≠ [] := by
  intro l cur
  induction l, cur using jsTok.induct with
  | _ =>
    rw [jsTok.eq_def]
    simp_all [mem_emitFlush_iff, or_imp, forall_and, forall_eq, and_imp,
      List.getElem?_eq_some, List.take_eq_nil_iff]
    repeat'
      first
      | omega
      | (split <;> simp_all [mem_emitFlush_iff, or_imp, forall_and, forall_eq, and_imp,
      List.getElem?_eq_some, List.take_eq_nil_iff])

theorem pyTok_flat : ∀ l cur, (pyTok l cur).flatten = cur ++ l := by
  intro l cur
  induction l, cur using pyTok.induct with
  | _ =>
    rw [pyTok.eq_def]
    simp_all [flatten_emitFlush, List.take_append_drop, take_one_append_tail,
      List.getElem?_eq_some]
    repeat'
      first
      | omega
      | (split <;>
          simp_all [flatten_emitFlush, List.take_append_drop, take_one_append_tail,
            List.getElem?_eq_some])

theorem pyTok_ne_nil : ∀ l cur, ∀ t ∈ pyTok l cur, t ≠ [] := by
  intro l cur
  induction l, cur using pyTok.induct with
  | _ =>
    rw [pyTok.eq_def]
    simp_all [mem_emitFlush_iff, or_imp, forall_and, forall_eq, and_imp,
      List.getElem?_eq_some, List.take_eq_nil_iff]
    repeat'
      first
      | omega
      | (split <;> simp_all [mem_emitFlush_iff, or_imp, forall_and, forall_eq, and_imp,
      List.getElem?_eq_some, List.take_eq_nil_iff])

theorem flatten_eq_nil (l : List (List Char)) (h : ∀ t ∈ l, t ≠ [])
    (h0 : l.flatten = []) : l = [] := by
  cases l with
  | nil => rfl
  | cons a tl =>
    simp only [List.flatten_cons, List.append_eq_nil] at h0
    exact absurd h0.1 (h a (by simp))

theorem tail_eq_nil_iff (l : List Char) : l.tail = [] ↔ l.length ≤ 1 := by
  cases l <;> simp

theorem jsStrip_tok_ne_nil (p : List Char) : ∀ t ∈ (jsStrip p).1, t ≠ [] := by
  unfold jsStrip
  split_ifs <;> simp_all

theorem jsStrip_nil (p : List Char) (h1 : (jsStrip p).1 = [])
    (h2 : (jsStrip p).2 = []) : p = [] := by
  unfold jsStrip at h1 h2
  split_ifs at h1 h2 <;>
    simp_all [List.take_eq_nil_iff, List.drop_eq_nil_iff, List.length_drop,
      tail_eq_nil_iff] <;>
    first
    | omega
    | (exfalso; omega)

theorem pyStrip1_flat (p : List Char) :
    ((pyStrip1 p).1).flatten ++ (pyStrip1 p).2 = p := by
  unfold pyStrip1
  split_ifs <;> simp [List.take_append_drop]

theorem pyStrip1_tok_ne_nil (p : List Char) : ∀ t ∈ (pyStrip1 p).1, t ≠ [] := by
  unfold pyStrip1
  split_ifs with hcond <;>
    simp_all [List.take_eq_nil_iff, List.getElem?_eq_some, ← List.length_pos]
  all_goals rcases hcond with ⟨⟨hp, -⟩ | ⟨hp, -⟩, -⟩ <;> exact hp

theorem pyStrip1_nil (p : List Char) (h1 : (pyStrip1 p).1 = []) :
    (pyStrip1 p).2 = p := by
  unfold pyStrip1 at h1 ⊢
  split_ifs at h1 ⊢ <;> simp_all

theorem pyStrip2_flat (p : List Char) :
    ((pyStrip2 p).1).flatten ++ (pyStrip2 p).2 = p := by
  unfold pyStrip2
  split_ifs <;> simp [List.take_append_drop]

theorem pyStrip2_tok_ne_nil (p : List Char) : ∀ t ∈ (pyStrip2 p).1, t ≠ [] := by
  unfold pyStrip2
  split_ifs <;>
    simp_all [List.take_eq_nil_iff, ← List.length_pos] <;>
    omega

theorem pyStrip2_nil (p : List Char) (h1 : (pyStrip2 p).1 = []) :
    (pyStrip2 p).2 = p := by
  unfold pyStrip2 at h1 ⊢
  split_ifs at h1 ⊢ <;> simp_all

theorem goTokenizeRegex_flat (p : List Char) : (goTokenizeRegex p).flatten = p := by
  simpa using goTok_flat p []

theorem pcreTokenizeRegex_flat (p : List Char) : (pcreTokenizeRegex p).flatten = p := by
  simpa using pcreTok_flat p []

theorem posixTokenizeRegex_flat (p : List Char) : (posixTokenizeRegex p).flatten = p := by
  simpa using posixTok_flat p []

theorem pyTokenizeRegex_flat (p : List Char) : (pyTokenizeRegex p).flatten = p := by
  calc (pyTokenizeRegex p).flatten
      = ((pyStrip1 p).1).flatten ++ (((pyStrip2 (pyStrip1 p).2).1).flatten ++
          (pyTok (pyStrip2 (pyStrip1 p).2).2 []).flatten) := by
        simp [pyTokenizeRegex]
    _ = ((pyStrip1 p).1).flatten ++ (((pyStrip2 (pyStrip1 p).2).1).flatten ++
          (pyStrip2 (pyStrip1 p).2).2) := by
        rw [pyTok_flat]; rfl
    _ = ((pyStrip1 p).1).flatten ++ (pyStrip1 p).2 := by rw [pyStrip2_flat]
    _ = p := pyStrip1_flat p

theorem goTokenizeRegex_nil_iff (p : List Char) : goTokenizeRegex p = [] ↔ p = [] := by
  constructor
  · intro h
    have := goTokenizeRegex_flat p
    rw [h] at this
    simpa using this.symm
  · rintro rfl
    simp [goTokenizeRegex, goTok, emitFlush]

theorem pcreTokenizeRegex_nil_iff (p : List Char) : pcreTokenizeRegex p = [] ↔ p = [] := by
  constructor
  · intro h
    have := pcreTokenizeRegex_flat p
    rw [h] at this
    simpa using this.symm
  · rintro rfl
    simp [pcreTokenizeRegex, pcreTok, emitFlush]

theorem posixTokenizeRegex_nil_iff (p : List Char) : posixTokenizeRegex p = [] ↔ p = [] := by
  constructor
  · intro h
    have := posixTokenizeRegex_flat p
    rw [h] at this
    simpa using this.symm
  · rintro rfl
    simp [posixTokenizeRegex, posixTok, emitFlush]

theorem jsTokenizeRegex_nil_iff (p : List Char) : jsTokenizeRegex p = [] ↔ p = [] := by
  constructor
  · intro h
    rw [jsTokenizeRegex, List.append_eq_nil] at h
    have hcore : (jsStrip p).2 = [] := by
      have := jsTok_flat (jsStrip p).2 []
      rw [h.2] at this
      simpa using this.symm
    exact jsStrip_nil p h.1 hcore
  · rintro rfl
    simp [jsTokenizeRegex, jsStrip, jsTok, emitFlush]

theorem pyTokenizeRegex_nil_iff (p : List Char) : pyTokenizeRegex p = [] ↔ p = [] := by
  constructor
  · intro h
    rw [pyTokenizeRegex, List.append_eq_nil, List.append_eq_nil] at h
    have h2 : (pyStrip1 p).2 = p := pyStrip1_nil p h.1.1
    have h3 : (pyStrip2 (pyStrip1 p).2).2 = (pyStrip1 p).2 := pyStrip2_nil _ h.1.2
    have hcore := pyTok_flat (pyStrip2 (pyStrip1 p).2).2 []
    rw [h.2] at hcore
    have : (pyStrip2 (pyStrip1 p).2).2 = [] := by simpa using hcore.symm
    rw [h3, h2] at this
    exact this
  · rintro rfl
    simp [pyTokenizeRegex, pyStrip1, pyStrip2, pyTok, emitFlush]

theorem jsTokenizeRegex_tok_ne_nil (p : List Char) :
    ∀ t ∈ jsTokenizeRegex p, t ≠ [] := by
  intro t ht
  rw [jsTokenizeRegex, List.mem_append] at ht
  rcases ht with ht | ht
  · exact jsStrip_tok_ne_nil p t ht
  · exact jsTok_ne_nil _ _ t ht

theorem pyTokenizeRegex_tok_ne_nil (p : List Char) :
    ∀ t ∈ pyTokenizeRegex p, t ≠ [] := by
  intro t ht
  rw [pyTokenizeRegex, List.mem_append, List.mem_append] at ht
  rcases ht with (ht | ht) | ht
  · exact pyStrip1_tok_ne_nil p t ht
  · exact pyStrip2_tok_ne_nil _ t ht
  · exact pyTok_ne_nil _ _ t ht

theorem goHasFeature_unknown (f : String) (hf : f ∉ featureKeys) :
    goHasFeature f = false := by
  simp [featureKeys] at hf
  unfold goHasFeature
  split_ifs <;> simp_all [FeatureLookahead, FeatureLookbehind, FeatureNamedGroup,
    FeatureAtomicGroup, FeatureConditional, FeaturePossessive, FeatureUnicodeClass,
    FeatureRecursion, FeatureBackreference, FeatureNamedBackref]

theorem pcreHasFeature_unknown (f : String) (hf : f ∉ featureKeys) :
    pcreHasFeature f = false := by
  simp [featureKeys] at hf
  unfold pcreHasFeature
  split_ifs <;> simp_all [FeatureLookahead, FeatureLookbehind, FeatureNamedGroup,
    FeatureAtomicGroup, FeatureConditional, FeaturePossessive, FeatureUnicodeClass,
    FeatureRecursion, FeatureBackreference, FeatureNamedBackref]

theorem posixHasFeature_unknown (f : String) (hf : f ∉ featureKeys) :
    posixHasFeature f = false := by
  simp [featureKeys] at hf
  unfold posixHasFeature
  split_ifs <;> simp_all [FeatureLookahead, FeatureLookbehind, FeatureNamedGroup,
    FeatureAtomicGroup, FeatureConditional, FeaturePossessive, FeatureUnicodeClass,
    FeatureRecursion, FeatureBackreference, FeatureNamedBackref]

theorem jsHasFeature_unknown (f : String) (hf : f ∉ featureKeys) :
    jsHasFeature f = false := by
  simp [featureKeys] at hf
  unfold jsHasFeature
  split_ifs <;> simp_all [FeatureLookahead, FeatureLookbehind, FeatureNamedGroup,
    FeatureAtomicGroup, FeatureConditional, FeaturePossessive, FeatureUnicodeClass,
    FeatureRecursion, FeatureBackreference, FeatureNamedBackref]

theorem pyHasFeature_unknown (f : String) (hf : f ∉ featureKeys) :
    pyHasFeature f = false := by
  simp [featureKeys] at hf
  unfold pyHasFeature
  split_ifs <;> simp_all [FeatureLookahead, FeatureLookbehind, FeatureNamedGroup,
    FeatureAtomicGroup, FeatureConditional, FeaturePossessive, FeatureUnicodeClass,
    FeatureRecursion, FeatureBackreference, FeatureNamedBackref]

theorem pyUnknownAux (t : List Char) (h2 : t.take 2 = ['(', '?'])
    (hl : t.getLast? = some ')') (hlen : 3 < t.length)
    (hch : ∃ ch ∈ (t.drop 2).dropLast, pyFlagChar ch = false) :
    pythonExplainToken t = "Unknown token: " ++ String.mk t := by
  have hall : ((t.drop 2).dropLast).all pyFlagChar = false := by
    obtain ⟨ch, hm, hc⟩ := hch
    cases h : ((t.drop 2).dropLast).all pyFlagChar with
    | false => rfl
    | true =>
      rw [List.all_eq_true] at h
      exact absurd (h ch hm) (by simp [hc])
  unfold pythonExplainToken
  rw [h2, hl]
  simp [hlen, hall]

/-- C1: the claim states that the closing-bracket scan treats `]` as the
closer unless it stands immediately after the opening `[`, so that
"[]abc]" would tokenize as the single class token "[]abc]" with the
closer at offset 5.  The code does the opposite: the disjunct
`i == start+1` in FindClosingBracket ACCEPTS the first-position `]` as
the closer, so the scan returns offset 1 and the baseline tokenizer
emits the empty class "[]" followed by the literal run "abc]". -/
theorem claim_C1_code_eval :
    findClosingBracket "[]abc]".toList = 1 ∧
    findClosingBracket "[]abc]".toList ≠ 5 ∧
    goTokenizeRegex "[]abc]".toList = ["[]".toList, "abc]".toList] ∧
    goTokenizeRegex "[]abc]".toList ≠ ["[]abc]".toList] := by
  have h : goTokenizeRegex "[]abc]".toList = ["[]".toList, "abc]".toList] := by
    simp [goTokenizeRegex, goTok, findClosingBracket, fcbAux, emitFlush]
  refine ⟨by decide, by decide, h, ?_⟩
  rw [h]
  decide

/-- C2: for every pattern, concatenating the emitted tokens reproduces the
post-stripping pattern exactly: the baseline, PCRE and POSIX tokenizers
reproduce the pattern itself; the Python tokenizer emits its raw-string
and inline-flags prefixes as their own source tokens so the whole stream
concatenates back to the pattern; the ECMA tokenizer is the synthesized
flags marker (when present) followed by the main-loop tokens, and those
main-loop tokens concatenate to the stripped core. -/
theorem claim_C2_coverage (p : List Char) :
    (goTokenizeRegex p).flatten = p ∧
    (pcreTokenizeRegex p).flatten = p ∧
    (posixTokenizeRegex p).flatten = p ∧
    (pyTokenizeRegex p).flatten = p ∧
    jsTokenizeRegex p = (jsStrip p).1 ++ jsTok (jsStrip p).2 [] ∧
    (jsTok (jsStrip p).2 []).flatten = (jsStrip p).2 := by
  refine ⟨goTokenizeRegex_flat p, pcreTokenizeRegex_flat p, posixTokenizeRegex_flat p,
    pyTokenizeRegex_flat p, rfl, ?_⟩
  simpa using jsTok_flat (jsStrip p).2 []

/-- C3: the claim states that the POSIX tokenizer emits a whole
[[:name:]] bracket expression as one token, e.g. "[[:alpha:]]" as the
single token "[[:alpha:]]".  In the code the special branch requires the
closing-bracket scan to land strictly after the inner ":]" marker, but
the scan always stops at the `]` of that very marker, so the branch
never fires and the generic scan splits the input into "[[:alpha:]" and
"]". -/
theorem claim_C3_code_eval :
    posixTokenizeRegex "[[:alpha:]]".toList = ["[[:alpha:]".toList, "]".toList] ∧
    posixTokenizeRegex "[[:alpha:]]".toList ≠ ["[[:alpha:]]".toList] := by
  have h : posixTokenizeRegex "[[:alpha:]]".toList = ["[[:alpha:]".toList, "]".toList] := by
    simp [posixTokenizeRegex, posixTok, strIndex, findClosingBracket, fcbAux, emitFlush,
      List.isPrefixOf]
  refine ⟨h, ?_⟩
  rw [h]
  decide

/-- C4 counterexample: the claim says a \u escape not followed by four hex
digits falls back to the two-character escape token "\u"; on input
"\uZZZZ" the Python tokenizer emits no "\u" token at all - the
backslash joins the literal run and the whole input is one literal
token. -/
theorem claim_C4_counterexample :
    pyTokenizeRegex "\\uZZZZ".toList = ["\\uZZZZ".toList] ∧
    "\\u".toList ∉ pyTokenizeRegex "\\uZZZZ".toList := by
  have h : pyTokenizeRegex "\\uZZZZ".toList = ["\\uZZZZ".toList] := by
    simp [pyTokenizeRegex, pyStrip1, pyStrip2, pyTok, pyEscSpan, pyGroupSpan, hexSpan,
      hex4, hex8, isHexDigit, idxOf, emitFlush]
  refine ⟨h, ?_⟩
  rw [h]
  decide

/-- C4 amended: \uHHHH is emitted as a single six-character token exactly
when four hex digits follow \u. For every continuation that is nonempty
but not four hex digits, no \u escape token is emitted at all: the
backslash is appended as the start of a fresh literal run and scanning
resumes at the u (so "\uZZZZ" is one literal token). Only a \u with
nothing after the u is emitted as the generic two-character escape token
"\u". Likewise for \U with eight hex digits. All four regimes are
quantified over every suffix and pending run; the pyTokenizeRegex
equations at the end instantiate them on whole patterns. -/
theorem claim_C4_amended :
    (∀ (h1 h2 h3 h4 : Char) (rest cur : List Char),
      isHexDigit h1 = true → isHexDigit h2 = true → isHexDigit h3 = true →
      isHexDigit h4 = true →
      pyTok ('\\' :: 'u' :: h1 :: h2 :: h3 :: h4 :: rest) cur =
        emitFlush cur (['\\', 'u', h1, h2, h3, h4] :: pyTok rest [])) ∧
    (∀ (rest cur : List Char), rest ≠ [] → hex4 rest = false →
      pyTok ('\\' :: 'u' :: rest) cur = emitFlush cur (pyTok ('u' :: rest) ['\\'])) ∧
    (∀ cur : List Char, pyTok ['\\', 'u'] cur = emitFlush cur [['\\', 'u']]) ∧
    (∀ (h1 h2 h3 h4 h5 h6 h7 h8 : Char) (rest cur : List Char),
      isHexDigit h1 = true → isHexDigit h2 = true → isHexDigit h3 = true →
      isHexDigit h4 = true → isHexDigit h5 = true → isHexDigit h6 = true →
      isHexDigit h7 = true → isHexDigit h8 = true →
      pyTok ('\\' :: 'U' :: h1 :: h2 :: h3 :: h4 :: h5 :: h6 :: h7 :: h8 :: rest) cur =
        emitFlush cur (['\\', 'U', h1, h2, h3, h4, h5, h6, h7, h8] :: pyTok rest [])) ∧
    (∀ (rest cur : List Char), rest ≠ [] → hex8 rest = false →
      pyTok ('\\' :: 'U' :: rest) cur = emitFlush cur (pyTok ('U' :: rest) ['\\'])) ∧
    (∀ cur : List Char, pyTok ['\\', 'U'] cur = emitFlush cur [['\\', 'U']]) ∧
    pyTokenizeRegex "\\u".toList = ["\\u".toList] ∧
    pyTokenizeRegex "\\uZZZZ".toList = ["\\uZZZZ".toList] ∧
    pyTokenizeRegex "\\u12G4".toList = ["\\u12G4".toList] ∧
    pyTokenizeRegex "\\U00012345".toList = ["\\U00012345".toList] ∧
    pyTokenizeRegex "\\UZZZZZZZZ".toList = ["\\UZZZZZZZZ".toList] := by
  refine ⟨?_, ?_, ?_, ?_, ?_, ?_, ?_, ?_, ?_, ?_, ?_⟩
  · intro h1 h2 h3 h4 rest cur e1 e2 e3 e4
    rw [pyTok.eq_def]
    simp [pyEscSpan, hex4, e1, e2, e3, e4]
  · intro rest cur hne hh
    have hlen : 2 < ('\\' :: 'u' :: rest).length := by
      have := List.length_pos.mpr hne
      simp only [List.length_cons]
      omega
    have hspan : pyEscSpan ('\\' :: 'u' :: rest) = 0 := by
      simp [pyEscSpan, hlen, hh, hne]
    rw [pyTok.eq_def]
    simp [hspan]
  · intro cur
    simp [pyTok, pyEscSpan, emitFlush]
  · intro h1 h2 h3 h4 h5 h6 h7 h8 rest cur e1 e2 e3 e4 e5 e6 e7 e8
    rw [pyTok.eq_def]
    simp [pyEscSpan, hex8, e1, e2, e3, e4, e5, e6, e7, e8]
  · intro rest cur hne hh
    have hlen : 2 < ('\\' :: 'U' :: rest).length := by
      have := List.length_pos.mpr hne
      simp only [List.length_cons]
      omega
    have hspan : pyEscSpan ('\\' :: 'U' :: rest) = 0 := by
      simp [pyEscSpan, hlen, hh, hne]
    rw [pyTok.eq_def]
    simp [hspan]
  · intro cur
    simp [pyTok, pyEscSpan, emitFlush]
  all_goals
    simp [pyTokenizeRegex, pyStrip1, pyStrip2, pyTok, pyEscSpan, pyGroupSpan, hexSpan,
      hex4, hex8, isHexDigit, idxOf, emitFlush]

theorem claim_C4_amended_witness :
    pyTok ('\\' :: 'u' :: '0' :: '1' :: '2' :: 'a' :: []) [] =
      emitFlush [] (['\\', 'u', '0', '1', '2', 'a'] :: pyTok [] []) ∧
    pyTok ('\\' :: 'u' :: 'Z' :: 'Z' :: 'Z' :: 'Z' :: []) [] =
      emitFlush [] (pyTok ('u' :: 'Z' :: 'Z' :: 'Z' :: 'Z' :: []) ['\\']) ∧
    pyTok ('\\' :: 'U' :: '0' :: '0' :: '0' :: '1' :: '2' :: '3' :: '4' :: '5' :: []) [] =
      emitFlush [] (['\\', 'U', '0', '0', '0', '1', '2', '3', '4', '5'] :: pyTok [] []) ∧
    pyTok ('\\' :: 'U' :: 'Z' :: []) [] =
      emitFlush [] (pyTok ('U' :: 'Z' :: []) ['\\']) :=
  ⟨claim_C4_amended.1 '0' '1' '2' 'a' [] []
    (by decide) (by decide) (by decide) (by decide),
   claim_C4_amended.2.1 ('Z' :: 'Z' :: 'Z' :: 'Z' :: []) []
    (by decide) (by decide),
   claim_C4_amended.2.2.2.1 '0' '0' '0' '1' '2' '3' '4' '5' [] []
    (by decide) (by decide) (by decide) (by decide)
    (by decide) (by decide) (by decide) (by decide),
   claim_C4_amended.2.2.2.2.1 ('Z' :: []) []
    (by decide) (by decide)⟩

/-- C5 counterexample: the claim describes the baseline fallback on
"(?<name>abc)" as the bare "(" token followed by LITERAL accumulation of
"?<name>..."; in the code the '?' right after the emitted "(" is taken
by the quantifier branch as its own token, so the literal run only
starts at '<'. -/
theorem claim_C5_counterexample :
    goTokenizeRegex "(?<name>abc)".toList =
      ["(".toList, "?".toList, "<name>abc".toList, ")".toList] ∧
    goTokenizeRegex "(?<name>abc)".toList ≠
      ["(".toList, "?<name>abc".toList, ")".toList] := by
  have h : goTokenizeRegex "(?<name>abc)".toList =
      ["(".toList, "?".toList, "<name>abc".toList, ")".toList] := by
    simp [goTokenizeRegex, goTok, goGroupSpan, findClosingBracket, fcbAux, emitFlush,
      idxOf]
  refine ⟨h, ?_⟩
  rw [h]
  decide

/-- C5 amended: on "(?<name>abc)" the baseline tokenizer (which recognizes
named groups only in the (?P<name> form) does not produce a "(?<name>"
header: it emits "(" as a bare group token, then "?" as a quantifier
token, then the literal run "<name>abc", then ")"; the PCRE tokenizer
yields exactly ["(?<name>", "abc", ")"]. -/
theorem claim_C5_amended :
    goTokenizeRegex "(?<name>abc)".toList =
      ["(".toList, "?".toList, "<name>abc".toList, ")".toList] ∧
    pcreTokenizeRegex "(?<name>abc)".toList =
      ["(?<name>".toList, "abc".toList, ")".toList] := by
  constructor
  · simp [goTokenizeRegex, goTok, goGroupSpan, findClosingBracket, fcbAux, emitFlush,
      idxOf]
  · simp [pcreTokenizeRegex, pcreTok, pcreGroupSpan, findClosingBracket, fcbAux,
      emitFlush, idxOf]

/-- C6: quantifier-suffix absorption is dialect specific: PCRE absorbs a
trailing '+' (possessive), ECMA absorbs a trailing '?' (non-greedy),
POSIX absorbs nothing. -/
theorem claim_C6_quantifier_suffix :
    pcreTokenizeRegex "a++".toList = ["a".toList, "++".toList] ∧
    jsTokenizeRegex "a+?".toList = ["a".toList, "+?".toList] ∧
    posixTokenizeRegex "a+".toList = ["a".toList, "+".toList] := by
  refine ⟨?_, ?_, ?_⟩
  · simp [pcreTokenizeRegex, pcreTok, pcreGroupSpan, emitFlush]
  · simp [jsTokenizeRegex, jsStrip, jsTok, jsGroupSpan, lastIdxOf, emitFlush]
  · simp [posixTokenizeRegex, posixTok, emitFlush]

/-- C7: for every dialect the tokenizer is a total function that returns
zero tokens exactly on the empty input and only tokens of length at
least 1. -/
theorem claim_C7_totality (p : List Char) :
    ((goTokenizeRegex p = []) ↔ p = []) ∧ (∀ t ∈ goTokenizeRegex p, 1 ≤ t.length) ∧
    ((pcreTokenizeRegex p = []) ↔ p = []) ∧ (∀ t ∈ pcreTokenizeRegex p, 1 ≤ t.length) ∧
    ((posixTokenizeRegex p = []) ↔ p = []) ∧ (∀ t ∈ posixTokenizeRegex p, 1 ≤ t.length) ∧
    ((jsTokenizeRegex p = []) ↔ p = []) ∧ (∀ t ∈ jsTokenizeRegex p, 1 ≤ t.length) ∧
    ((pyTokenizeRegex p = []) ↔ p = []) ∧ (∀ t ∈ pyTokenizeRegex p, 1 ≤ t.length) := by
  refine ⟨goTokenizeRegex_nil_iff p, ?_, pcreTokenizeRegex_nil_iff p, ?_,
    posixTokenizeRegex_nil_iff p, ?_, jsTokenizeRegex_nil_iff p, ?_,
    pyTokenizeRegex_nil_iff p, ?_⟩
  · exact fun t ht => List.length_pos.mpr (goTok_ne_nil p [] t ht)
  · exact fun t ht => List.length_pos.mpr (pcreTok_ne_nil p [] t ht)
  · exact fun t ht => List.length_pos.mpr (posixTok_ne_nil p [] t ht)
  · exact fun t ht => List.length_pos.mpr (jsTokenizeRegex_tok_ne_nil p t ht)
  · exact fun t ht => List.length_pos.mpr (pyTokenizeRegex_tok_ne_nil p t ht)

/-- C8: the feature tables are fixed boolean maps queried by exact key;
pcre supports lookbehind, posix does not, the baseline has no atomic
groups, and every key outside the ten-entry table maps to false in all
five dialects. -/
theorem claim_C8_feature_matrix :
    pcreHasFeature "lookbehind" = true ∧
    posixHasFeature "lookbehind" = false ∧
    goHasFeature "atomic_group" = false ∧
    (∀ f : String, f ∉ featureKeys →
      goHasFeature f = false ∧ pcreHasFeature f = false ∧ posixHasFeature f = false ∧
      jsHasFeature f = false ∧ pyHasFeature f = false) := by
  refine ⟨by decide, by decide, by decide, ?_⟩
  intro f hf
  exact ⟨goHasFeature_unknown f hf, pcreHasFeature_unknown f hf,
    posixHasFeature_unknown f hf, jsHasFeature_unknown f hf, pyHasFeature_unknown f hf⟩

theorem claim_C8_feature_matrix_witness :
    goHasFeature "nonexistent" = false ∧ pcreHasFeature "nonexistent" = false ∧
    posixHasFeature "nonexistent" = false ∧ jsHasFeature "nonexistent" = false ∧
    pyHasFeature "nonexistent" = false :=
  claim_C8_feature_matrix.2.2.2 "nonexistent" (by decide)

/-- C9: in the Python explainer, any token shaped "(?"..."" + ")" of length
above 3 whose interior holds a character outside the inline-flag set is
answered with the fallback "Unknown token: " text (the Go switch case
matches and its body returns nothing, falling to the trailing return);
in particular the named-backreference token "(?P=name)" produced by the
Python tokenizer gets the unknown-token text, and every token matching
the dedicated (?P=...) description branch (prefix "(?P=", suffix ")")
is already trapped this way, so that branch is unreachable. -/
theorem claim_C9_unknown_token :
    (∀ t : List Char, t.take 2 = ['(', '?'] → t.getLast? = some ')' → 3 < t.length →
      (∃ ch ∈ (t.drop 2).dropLast, pyFlagChar ch = false) →
      pythonExplainToken t = "Unknown token: " ++ String.mk t) ∧
    pythonExplainToken "(?P=name)".toList = "Unknown token: (?P=name)" ∧
    (∀ t : List Char, t.take 4 = ['(', '?', 'P', '='] → t.getLast? = some ')' →
      pythonExplainToken t = "Unknown token: " ++ String.mk t) := by
  refine ⟨fun t h2 hl hlen hch => pyUnknownAux t h2 hl hlen hch, ?_, ?_⟩
  · exact pyUnknownAux "(?P=name)".toList (by decide) (by decide) (by decide)
      ⟨'P', by decide, by decide⟩
  · intro t h4 hl
    rcases t with _ | ⟨a, _ | ⟨b, _ | ⟨c, _ | ⟨d, t5⟩⟩⟩⟩ <;> simp_all
    obtain ⟨rfl, rfl, rfl, rfl⟩ := h4
    rcases t5 with _ | ⟨e, t6⟩
    · simp at hl
    · refine pyUnknownAux _ (by simp) ?_ (by simp only [List.length_cons]; omega) ⟨'P', by simp, by decide⟩
      simpa using hl

theorem claim_C9_unknown_token_witness :
    pythonExplainToken "(?P=x)".toList = "Unknown token: " ++ String.mk "(?P=x)".toList ∧
    pythonExplainToken "(?Qi)".toList = "Unknown token: " ++ String.mk "(?Qi)".toList :=
  ⟨claim_C9_unknown_token.2.2 "(?P=x)".toList (by decide) (by decide),
   claim_C9_unknown_token.1 "(?Qi)".toList (by decide) (by decide) (by decide)
     ⟨'Q', by decide, by decide⟩⟩

/-- C10: the ECMA explainer classifies every token whose first character is
'/' as a flags token, explaining the remaining characters as flags - the
bare "/" as "No flags specified" - including literal tokens from the
pattern body such as the token "/b" produced on input "/b". -/
theorem claim_C10_js_slash_flags :
    (∀ rest : List Char, jsExplainToken ('/' :: rest) = explainJsFlags rest) ∧
    jsExplainToken "/".toList = "No flags specified" ∧
    jsTokenizeRegex "/b".toList = ["/b".toList] ∧
    jsExplainToken "/b".toList = "Flags: b: Unknown flag" := by
  refine ⟨?_, ?_, ?_, ?_⟩
  · intro rest
    unfold jsExplainToken
    simp
  · simp [jsExplainToken, explainJsFlags]
  · simp [jsTokenizeRegex, jsStrip, jsTok, lastIdxOf, emitFlush]
  · simp [jsExplainToken, explainJsFlags, jsFlagExpl, String.intercalate]
    rfl

theorem fcbAux_le_colon :
    ∀ (l : List Char) (prev : Char) (j : Int) (k : Nat), 1 ≤ j →
    l[k]? = some ':' → l[k + 1]? = some ']' →
    0 ≤ fcbAux prev l j ∧ fcbAux prev l j ≤ j + (k + 1) := by
  intro l
  induction l with
  | nil =>
    intro prev j k hj hcolon hbr
    simp at hcolon
  | cons c rest ih =>
    intro prev j k hj hcolon hbr
    rw [fcbAux]
    split
    · constructor <;> omega
    · rcases k with _ | k'
      · simp at hcolon hbr
        subst hcolon
        rcases rest with _ | ⟨c2, rest2⟩
        · simp at hbr
        · simp at hbr
          subst hbr
          rw [fcbAux]
          simp <;> omega
      · have := ih c (j + 1) k' (by omega) (by simpa using hcolon) (by simpa using hbr)
        constructor <;> omega

theorem strIndex_isPrefixOf :
    ∀ (l : List Char) (sub : List Char) (n : Nat), strIndex sub l = (n : Int) →
    sub.isPrefixOf (l.drop n) = true := by
  intro l
  induction l with
  | nil =>
    intro sub n h
    rw [strIndex] at h
    split at h
    · simp_all
    · omega
  | cons c rest ih =>
    intro sub n h
    rw [strIndex] at h
    split at h
    · rename_i hpre
      have : n = 0 := by omega
      subst this
      simpa using hpre
    · split at h
      · rcases n with _ | n'
        · omega
        · have := ih sub n' (by omega)
          simpa using this
      · omega

theorem prefix_two_getElem {a b : Char} {m : List Char}
    (h : [a, b].isPrefixOf m = true) : m[0]? = some a ∧ m[1]? = some b := by
  rcases m with _ | ⟨x, _ | ⟨y, m2⟩⟩ <;> simp_all [List.isPrefixOf]

/-- The guard of the POSIX [[:name:]] special branch can never hold: when
the ":]" marker first occurs at offset e, the closing-bracket scan stops
at or before the marker's own `]` (offset e+1), never strictly after
e+2, so the branch posix.go lines 56-66 is unreachable and the generic
scan always decides the token. -/
theorem posixClassGuard_unreachable (l : List Char) :
    ¬(3 < strIndex [':', ']'] l ∧ strIndex [':', ']'] l + 2 < findClosingBracket l) := by
  rintro ⟨h3, hlt⟩
  obtain ⟨n, hen, hn4⟩ : ∃ n : Nat, strIndex [':', ']'] l = (n : Int) ∧ 4 ≤ n :=
    ⟨(strIndex [':', ']'] l).toNat, by omega, by omega⟩
  have hpre := strIndex_isPrefixOf l [':', ']'] n hen
  obtain ⟨h0, h1⟩ := prefix_two_getElem hpre
  rw [List.getElem?_drop] at h0 h1
  rcases l with _ | ⟨c0, rest⟩
  · simp at h0
  · have hcolon : rest[n - 1]? = some ':' := by
      rcases n with _ | n'
      · omega
      · simpa using h0
    have hbr : rest[(n - 1) + 1]? = some ']' := by
      rcases n with _ | n'
      · omega
      · simpa using h1
    have hle := fcbAux_le_colon rest c0 1 (n - 1) (by omega) hcolon hbr
    rw [findClosingBracket] at hlt
    rw [hen] at hlt
    omega

end Unregex
